import Mathlib

/-!
Verification of the racing worker pool in `src/main.rs`.

The development shallowly embeds the core of the program:
* `rustExtension`, `hasZipExt`, `how_many_zips` — the artifact counter
  (`how_many_zips`, lines 163-175).  A directory read is modelled as
  `Except String (List (Except String String))`: the outer `Except` is the
  result of `fs::read_dir` (propagated by `?`), the inner list holds the
  per-entry results of the `ReadDir` iterator (an entry is its file name);
  `.flatten()` in the source keeps only the `Ok` entries.
* `initial_zips` — the Baseline computation (line 82,
  `how_many_zips(..).unwrap_or_default()`).
* `monitorStep`, `monitorRun`, `monitor_thread`, `monitor_assert` — the
  monitor closure (lines 88-114).  `MonitorResult.success` stands for the
  `break` followed by `signal::kill(SIGINT)` and `process::exit(0)`;
  `MonitorResult.running t` is the loop still waiting with tracked value `t`.
  Timeouts of `recv_timeout` are no-ops in the source and are not part of the
  message list.
* `worker_iter`, `worker_step` — one iteration of the worker loop closure
  (lines 123-154), as the sequence of externally visible actions it performs
  and as (loop control, report sent).  `IterInput` fixes the outcome of the
  three fallible operations of an iteration: spawning, acquiring stdout, and
  counting.
* `generate_args`, `stdin_bytes` — `generate_multiworld` (lines 178-210):
  the argument vector handed to `Command` and the bytes written to the
  child's stdin right after spawning.
* `workerSpawnCount`, `main_trace` — the setup sequence of `main` and the
  spawn loop `for _ in 1..jobs + 1` with `jobs : u8`; the add wraps modulo
  256 (release overflow semantics; debug builds panic instead).
-/

/-- `Path::extension` of a file name, per the Rust rule: the portion after
the final dot of the name, except that a leading dot is part of the stem.
`afterLastDot` returns the characters after the last dot, if any. -/
def afterLastDot : List Char → Option (List Char)
  | [] => none
  | c :: rest =>
    match afterLastDot rest with
    | some e => some e
    | none => if c = '.' then some rest else none

/-- The extension of a file name as `Path::extension` computes it:
`none` when there is no dot, or when the only dot is the leading one. -/
def rustExtension (name : String) : Option String :=
  match name.data with
  | [] => none
  | c :: rest =>
    if c = '.' then (afterLastDot rest).map (fun e => String.mk e)
    else (afterLastDot (c :: rest)).map (fun e => String.mk e)

/-- `entry.path().extension().is_some_and(|ext| ext == "zip")` (lines 167-172). -/
def hasZipExt (name : String) : Bool :=
  (rustExtension name).any (fun e => e == "zip")

/-- `how_many_zips` (lines 163-175): propagate the `read_dir` error via `?`,
then `flatten` discards errored entries, `filter` keeps the `.zip` ones,
`count` takes the length. -/
def how_many_zips (dir : Except String (List (Except String String))) :
    Except String Nat :=
  match dir with
  | Except.error e => Except.error e
  | Except.ok entries =>
    Except.ok (((entries.filterMap Except.toOption).filter hasZipExt).length)

/-- Baseline (line 82): `how_many_zips(&archipelago_dir).unwrap_or_default()`. -/
def initial_zips (dir : Except String (List (Except String String))) : Nat :=
  match how_many_zips dir with
  | Except.ok n => n
  | Except.error _ => 0

/-- What the monitor does with one received report (lines 94-106). -/
inductive MonitorOutcome where
  | success
  | continueWith (newMax : Nat)
  deriving DecidableEq, Repr

/-- One received report `msg` against the tracked value `mx` (lines 95-106):
`msg.gt(&max)` breaks out of the loop (success); `msg.lt(&max)` lowers the
tracked value; otherwise nothing changes. -/
def monitorStep (mx msg : Nat) : MonitorOutcome :=
  if mx < msg then MonitorOutcome.success
  else if msg < mx then MonitorOutcome.continueWith msg
  else MonitorOutcome.continueWith mx

/-- The condition of `debug_assert!(max <= msg)` (line 94). -/
def monitor_assert (mx msg : Nat) : Prop := mx ≤ msg

/-- Result of running the monitor loop on a list of received reports:
either the success branch was taken (after which the source breaks, sends
SIGINT to the process group and calls `process::exit(0)`), or the loop is
still running with the current tracked value. -/
inductive MonitorResult where
  | success
  | running (tracked : Nat)
  deriving DecidableEq, Repr

/-- The monitor loop (lines 91-110) over a list of received reports. -/
def monitorRun (mx : Nat) : List Nat → MonitorResult
  | [] => MonitorResult.running mx
  | msg :: rest =>
    match monitorStep mx msg with
    | MonitorOutcome.success => MonitorResult.success
    | MonitorOutcome.continueWith t => monitorRun t rest

/-- The monitor thread (lines 88-114): `let mut max = initial_zips` then the
receive loop. -/
def monitor_thread (dir : Except String (List (Except String String)))
    (msgs : List Nat) : MonitorResult :=
  monitorRun (initial_zips dir) msgs

/-- The value the spec says completion decisions compare against: the
maximum of the Baseline and every report seen so far.  (Stated from the
spec's words, to be compared with what `monitorRun` actually does.) -/
def claimed_threshold (baseline : Nat) (prior : List Nat) : Nat :=
  prior.foldl max baseline

/-- Externally visible actions of one worker-loop iteration (lines 123-154),
with `checkCancel` and `waitExit` in the alphabet for the actions the spec
describes. -/
inductive WorkerAction where
  | checkCancel
  | spawn
  | takeStdout
  | killChild
  | readOutput
  | countZips
  | sendReport (n : Nat)
  | waitExit
  deriving DecidableEq, Repr

/-- Outcomes of the three fallible operations of one worker iteration. -/
structure IterInput where
  spawnOk : Bool
  stdoutAvailable : Bool
  countResult : Except String Nat
  deriving Repr

/-- The action sequence of one worker-loop iteration (lines 123-154):
spawn (`generate_multiworld`); on failure `continue`; take stdout, on
failure kill the child and `continue`; `read_to_string` the whole stdout
into one buffer; count the zips; on `Ok` send the report, on `Err` kill the
child and log. -/
def worker_iter (i : IterInput) : List WorkerAction :=
  if i.spawnOk = false then [WorkerAction.spawn]
  else if i.stdoutAvailable = false then
    [WorkerAction.spawn, WorkerAction.takeStdout, WorkerAction.killChild]
  else
    WorkerAction.spawn :: WorkerAction.takeStdout :: WorkerAction.readOutput ::
      WorkerAction.countZips ::
      (match i.countResult with
       | Except.ok n => [WorkerAction.sendReport n]
       | Except.error _ => [WorkerAction.killChild])

/-- Whether the loop body ends by continuing the loop or by leaving it. -/
inductive LoopControl where
  | continueLoop
  | exitLoop
  deriving DecidableEq, Repr

/-- One worker-loop iteration as (control flow at the end of the body,
report sent on this iteration).  Every path in the source ends in `continue`
or falls through to the next `loop` iteration; a report is sent only when
counting succeeded (lines 140-153). -/
def worker_step (i : IterInput) : LoopControl × Option Nat :=
  if i.spawnOk = false then (LoopControl.continueLoop, none)
  else if i.stdoutAvailable = false then (LoopControl.continueLoop, none)
  else
    match i.countResult with
    | Except.ok n => (LoopControl.continueLoop, some n)
    | Except.error _ => (LoopControl.continueLoop, none)

/-- The argument vector after the command name in `generate_multiworld`
(lines 180-197): `"Generate"` then, when the passthrough list is nonempty,
each option formatted as `--{option}` in order. -/
def generate_args (args : List String) : List String :=
  if args.isEmpty = false then
    "Generate" :: args.map (fun a => "--" ++ a)
  else ["Generate"]

/-- Bytes written to the child's stdin right after spawning
(lines 201-208): `b"\n"` when the stdin handle was acquired, nothing
otherwise. -/
def stdin_bytes (stdinAvailable : Bool) : List Char :=
  if stdinAvailable then ['\n'] else []

/-- Number of workers spawned by `for _ in 1..jobs + 1` (line 119) with
`jobs : u8`: the upper bound is computed in 8-bit arithmetic, so it wraps
modulo 256 (release builds; debug builds panic on the overflow). -/
def workerSpawnCount (jobs : Nat) : Nat :=
  ((jobs + 1) % 256) - 1

/-- Steps of `main` in source order (lines 58-157). -/
inductive MainAction where
  | initTracing
  | parseArgs
  | canonicalizeDir
  | createChannel
  | computeBaseline
  | spawnMonitor
  | spawnWorker (i : Nat)
  deriving DecidableEq, Repr

/-- The setup sequence of `main` (lines 58-157): tracing, argument parsing,
directory canonicalization, channel creation, the single Baseline
computation (line 82), the monitor spawn (line 88), then the worker spawn
loop. -/
def main_trace (jobs : Nat) : List MainAction :=
  [MainAction.initTracing, MainAction.parseArgs, MainAction.canonicalizeDir,
   MainAction.createChannel, MainAction.computeBaseline,
   MainAction.spawnMonitor]
    ++ (List.range (workerSpawnCount jobs)).map MainAction.spawnWorker

/-- Splitting a monitor run at an append: the run either succeeds during the
first part, or continues into the second from the tracked value it reached. -/
lemma monitorRun_append (mx : Nat) (p q : List Nat) :
    monitorRun mx (p ++ q) =
      match monitorRun mx p with
      | MonitorResult.success => MonitorResult.success
      | MonitorResult.running t => monitorRun t q := by
  induction p generalizing mx with
  | nil => simp [monitorRun]
  | cons m rest ih =>
    cases h : monitorStep mx m with
    | success => simp [monitorRun, h]
    | continueWith t => simp [monitorRun, h, ih]

/-- As long as the success branch has not been taken, the tracked value is
the minimum of the starting value and every report received: the loop only
ever lowers it. -/
lemma monitorRun_not_success (p : List Nat) :
    ∀ mx, monitorRun mx p ≠ MonitorResult.success →
      monitorRun mx p = MonitorResult.running (p.foldl min mx) := by
  induction p with
  | nil => intro mx _; simp [monitorRun]
  | cons m rest ih =>
    intro mx h
    by_cases hlt : mx < m
    · exact absurd (by simp [monitorRun, monitorStep, hlt]) h
    · have hmle : m ≤ mx := Nat.not_lt.1 hlt
      have hstep : monitorStep mx m = MonitorOutcome.continueWith (min mx m) := by
        rcases Nat.lt_or_ge m mx with h2 | h2
        · simp [monitorStep, hlt, h2, Nat.min_eq_right hmle]
        · have hmx : m = mx := le_antisymm hmle h2
          subst hmx
          simp [monitorStep, Nat.min_self]
      have hrun : monitorRun mx (m :: rest) = monitorRun (min mx m) rest := by
        simp [monitorRun, hstep]
      rw [hrun] at h ⊢
      rw [ih (min mx m) h]
      simp [List.foldl_cons]

/-- C1: for every received report exactly one of three cases applies, and the
tracked value starts at the Baseline.  `mx < msg` takes the success branch
(breaking the loop at once, whatever reports remain; in the source the break
is followed by the SIGINT to the process group and `process::exit(0)`);
`msg < mx` lowers the tracked value to `msg` and continues; `msg = mx` leaves
the state unchanged and continues.  The last conjunct shows the loop starting
from `initial_zips`, the Baseline, as on line 90. -/
theorem c1_monitor_cases (mx msg : Nat) :
    (mx < msg → monitorStep mx msg = MonitorOutcome.success ∧
      ∀ rest, monitorRun mx (msg :: rest) = MonitorResult.success) ∧
    (msg < mx → monitorStep mx msg = MonitorOutcome.continueWith msg ∧
      ∀ rest, monitorRun mx (msg :: rest) = monitorRun msg rest) ∧
    (msg = mx → monitorStep mx msg = MonitorOutcome.continueWith mx ∧
      ∀ rest, monitorRun mx (msg :: rest) = monitorRun mx rest) ∧
    (∀ dir rest, initial_zips dir < msg →
      monitor_thread dir (msg :: rest) = MonitorResult.success) := by
  refine ⟨fun h => ⟨?_, fun rest => ?_⟩, fun h => ⟨?_, fun rest => ?_⟩,
    fun h => ⟨?_, fun rest => ?_⟩, fun dir rest h => ?_⟩
  · simp [monitorStep, h]
  · simp [monitorRun, monitorStep, h]
  · simp [monitorStep, Nat.lt_asymm h, h]
  · simp [monitorRun, monitorStep, Nat.lt_asymm h, h]
  · subst h; simp [monitorStep]
  · subst h; simp [monitorRun, monitorStep]
  · simp [monitor_thread, monitorRun, monitorStep, h]

/-- Witness for C1 at concrete inputs: a report above, below and equal to the
tracked value, and a run started from a Baseline of 0 (unreadable directory). -/
theorem c1_monitor_cases_witness :
    monitorStep 1 2 = MonitorOutcome.success ∧
    monitorStep 3 2 = MonitorOutcome.continueWith 2 ∧
    monitorStep 2 2 = MonitorOutcome.continueWith 2 ∧
    monitor_thread (Except.error "e") [1] = MonitorResult.success :=
  ⟨((c1_monitor_cases 1 2).1 (by decide)).1,
   ((c1_monitor_cases 3 2).2.1 (by decide)).1,
   ((c1_monitor_cases 2 2).2.2.1 rfl).1,
   (c1_monitor_cases 0 1).2.2.2 (Except.error "e") [] (by decide)⟩

/-- C2 counterexample: with Baseline 5 and reports 3 then 4, the monitor takes
the success branch on the report of 4, although 4 does not exceed
`claimed_threshold 5 [3] = 5`, the maximum of the Baseline and every prior
report that the claim says is compared against. -/
theorem c2_counterexample :
    monitorRun 5 [3, 4] = MonitorResult.success ∧
    ¬ claimed_threshold 5 [3] < 4 := by decide

/-- C2 amended: once reports begin, the completion decision compares the next
report against the current tracked value, which equals the MINIMUM of the
Baseline and every report seen so far (the loop only lowers it); success
fires exactly when a report strictly exceeds that minimum. -/
theorem c2_amended (baseline m : Nat) (p : List Nat)
    (h : monitorRun baseline p ≠ MonitorResult.success) :
    monitorRun baseline (p ++ [m]) = MonitorResult.success ↔
      p.foldl min baseline < m := by
  have hp := monitorRun_not_success p baseline h
  rw [monitorRun_append, hp]
  rcases Nat.lt_or_ge (p.foldl min baseline) m with hm | hm
  · simp [monitorRun, monitorStep, hm]
  · have hnm : ¬ p.foldl min baseline < m := Nat.not_lt.2 hm
    by_cases h2 : m < p.foldl min baseline <;>
      simp [monitorRun, monitorStep, hnm, h2]

/-- Witness for C2 amended: Baseline 5, earlier report 3 (no success yet),
then a report of 4 exceeding the tracked minimum 3. -/
theorem c2_amended_witness :
    monitorRun 5 ([3] ++ [4]) = MonitorResult.success ∧ [3].foldl min 5 < 4 :=
  ⟨(c2_amended 5 4 [3] (by decide)).2 (by decide), by decide⟩

/-- C10: the condition of `debug_assert!(max <= msg)` is violated by the very
input the shrink branch below it handles: with tracked value 5 and received
report 3, the assertion condition `5 ≤ 3` is false (a debug build panics
there), while the loop body is written to lower the tracked value to 3. -/
theorem c10_assert_violated :
    ¬ monitor_assert 5 3 ∧ monitorStep 5 3 = MonitorOutcome.continueWith 3 := by
  exact ⟨by unfold monitor_assert; decide, by decide⟩

/-- C3 counterexample: an ordinary successful iteration of the worker loop
begins directly with the spawn and performs no cancellation-token read at
all — there is no `checkCancel` anywhere in its action sequence. -/
theorem c3_counterexample :
    (worker_iter ⟨true, true, Except.ok 0⟩).head? = some WorkerAction.spawn ∧
    WorkerAction.checkCancel ∉ worker_iter ⟨true, true, Except.ok 0⟩ := by
  decide

/-- C3 amended: the worker loop contains no cancellation check of any kind:
every iteration, whatever the outcomes of its fallible operations,
unconditionally begins with a spawn attempt and never reads a cancellation
token.  Workers are stopped only by the monitor terminating the whole
process (SIGINT to the process group, then `process::exit(0)`). -/
theorem c3_amended (i : IterInput) :
    (worker_iter i).head? = some WorkerAction.spawn ∧
    WorkerAction.checkCancel ∉ worker_iter i := by
  rcases i with ⟨s, o, c⟩
  cases s <;> cases o <;> cases c <;> simp [worker_iter]

/-- C4 counterexample: a successful iteration queries the artifact count but
never waits for the subprocess to exit — `waitExit` is absent from the
iteration's action sequence (the source never calls `child.wait()`). -/
theorem c4_counterexample :
    WorkerAction.countZips ∈ worker_iter ⟨true, true, Except.ok 3⟩ ∧
    WorkerAction.waitExit ∉ worker_iter ⟨true, true, Except.ok 3⟩ := by
  decide

/-- C4 amended: on every iteration that reaches the count query, the worker
first reads the subprocess's stdout to end-of-input into a single buffer
(`read_to_string`, the `readOutput` action) before querying the count; but
no iteration ever waits for the subprocess to exit. -/
theorem c4_amended (i : IterInput)
    (h : WorkerAction.countZips ∈ worker_iter i) :
    List.Sublist [WorkerAction.readOutput, WorkerAction.countZips]
      (worker_iter i) ∧
    WorkerAction.waitExit ∉ worker_iter i := by
  rcases i with ⟨s, o, c⟩
  cases s with
  | false => simp [worker_iter] at h
  | true =>
    cases o with
    | false => simp [worker_iter] at h
    | true =>
      cases c with
      | ok n =>
        refine ⟨?_, by simp [worker_iter]⟩
        simp only [worker_iter]
        exact (((List.nil_sublist _).cons₂ _).cons₂ _).cons _ |>.cons _
      | error e =>
        refine ⟨?_, by simp [worker_iter]⟩
        simp only [worker_iter]
        exact (((List.nil_sublist _).cons₂ _).cons₂ _).cons _ |>.cons _

/-- Witness for C4 amended at a concrete successful iteration. -/
theorem c4_amended_witness :
    List.Sublist [WorkerAction.readOutput, WorkerAction.countZips]
      (worker_iter ⟨true, true, Except.ok 2⟩) ∧
    WorkerAction.waitExit ∉ worker_iter ⟨true, true, Except.ok 2⟩ :=
  c4_amended ⟨true, true, Except.ok 2⟩ (by decide)

/-- C9: no per-iteration error escapes the worker loop: every path through
the loop body ends by continuing the loop (there is no `break` or `return`
and no cap or backoff), and no report is sent when spawning failed, when the
stdout handle was missing, or when the count failed. -/
theorem c9_worker_absorbs (i : IterInput) :
    (worker_step i).1 = LoopControl.continueLoop ∧
    (∀ e, i.countResult = Except.error e → (worker_step i).2 = none) ∧
    (i.spawnOk = false → (worker_step i).2 = none) ∧
    (i.stdoutAvailable = false → (worker_step i).2 = none) := by
  rcases i with ⟨s, o, c⟩
  cases s <;> cases o <;> cases c <;> simp [worker_step]

/-- Witness for C9 at a concrete iteration whose count failed: the loop
continues and nothing is reported. -/
theorem c9_worker_absorbs_witness :
    (worker_step ⟨true, true, Except.error "count failed"⟩).1 =
      LoopControl.continueLoop ∧
    (worker_step ⟨true, true, Except.error "count failed"⟩).2 = none :=
  ⟨(c9_worker_absorbs ⟨true, true, Except.error "count failed"⟩).1,
   (c9_worker_absorbs ⟨true, true, Except.error "count failed"⟩).2.1
     "count failed" rfl⟩

/-- C7: the external generator is invoked with first argument `Generate`
followed by each passthrough option rendered as `--option`, in order (both
branches of `generate_multiworld` produce this shape), and when the stdin
handle is acquired (the source always requests a piped stdin) exactly the
single newline byte is written to it right after spawning. -/
theorem c7_generate (args : List String) (avail : Bool) (h : avail = true) :
    generate_args args = "Generate" :: args.map (fun a => "--" ++ a) ∧
    stdin_bytes avail = ['\n'] := by
  subst h
  refine ⟨?_, rfl⟩
  cases args with
  | nil => rfl
  | cons a rest => rfl

/-- Witness for C7 with one passthrough option. -/
theorem c7_generate_witness :
    generate_args ["race"] = ["Generate", "--race"] ∧
    stdin_bytes true = ['\n'] :=
  ⟨(c7_generate ["race"] true rfl).1.trans rfl,
   (c7_generate ["race"] true rfl).2⟩

/-- The first six steps of `main` are the fixed setup. -/
lemma main_trace_take (j : Nat) :
    (main_trace j).take 6 =
      [MainAction.initTracing, MainAction.parseArgs, MainAction.canonicalizeDir,
       MainAction.createChannel, MainAction.computeBaseline,
       MainAction.spawnMonitor] := by
  rw [main_trace]
  exact List.take_left' rfl

/-- Everything after the first six steps of `main` is the worker spawns. -/
lemma main_trace_drop (j : Nat) :
    (main_trace j).drop 6 =
      (List.range (workerSpawnCount j)).map MainAction.spawnWorker := by
  rw [main_trace]
  exact List.drop_left' rfl

/-- C5: at the maximum representable worker count, `jobs = 255`, the spawn
loop `for _ in 1..jobs + 1` computes its upper bound in `u8`: `255 + 1`
wraps to `0` (release builds; debug builds panic on the overflow), so the
range `1..0` is empty and zero workers are spawned instead of 255, while
one monitor and one Baseline computation still happen; for any smaller
count the loop spawns exactly `jobs` workers (shown at 254 and 4). -/
theorem c5_spawn_overflow :
    workerSpawnCount 255 = 0 ∧ workerSpawnCount 254 = 254 ∧
    workerSpawnCount 4 = 4 ∧
    (main_trace 255).count MainAction.spawnMonitor = 1 ∧
    (∀ i, MainAction.spawnWorker i ∉ main_trace 255) := by
  refine ⟨by decide, by decide, by decide, by decide, fun i => ?_⟩
  simp [main_trace, workerSpawnCount]

/-- C6 counterexample: a readable directory whose listing contains one entry
that errored mid-iteration and two readable `.zip` entries: `flatten`
silently drops the errored entry and the function returns the best-effort
count `Ok 2` even though an error occurred while reading entries. -/
theorem c6_counterexample :
    how_many_zips (Except.ok
      [Except.error "transient io error", Except.ok "a.zip",
       Except.ok "b.zip"]) = Except.ok 2 := rfl

/-- C6 amended: if the directory itself is unreadable or nonexistent the
`read_dir` error is propagated unchanged and no count is returned; when the
listing is obtained, the result is the count of the entries directly inside
the directory that were read successfully and whose name has the `zip`
extension (non-recursive) — entries that error during iteration are
silently skipped, so the count can be best-effort with respect to them. -/
theorem c6_amended :
    (∀ e, how_many_zips (Except.error e) = Except.error e) ∧
    (∀ entries, how_many_zips (Except.ok entries) =
      Except.ok (entries.countP (fun x =>
        match x with
        | Except.ok name => hasZipExt name
        | Except.error _ => false))) := by
  refine ⟨fun e => rfl, fun entries => ?_⟩
  simp only [how_many_zips, Except.ok.injEq]
  induction entries with
  | nil => rfl
  | cons x rest ih =>
    cases x with
    | ok name =>
      by_cases hz : hasZipExt name <;>
        simp [List.filterMap_cons, List.countP_cons, Except.toOption, hz,
          List.filter_cons, ih]
    | error e =>
      simp [List.filterMap_cons, List.countP_cons, Except.toOption, ih]

/-- C8: the Baseline is `how_many_zips(..).unwrap_or_default()`: 0 when the
directory read fails, the counted value when it succeeds; and in `main` the
Baseline computation happens exactly once, among the six setup steps before
the monitor spawn, with every worker spawn strictly after those six steps. -/
theorem c8_baseline_once :
    (∀ e, initial_zips (Except.error e) = 0) ∧
    (∀ entries n, how_many_zips (Except.ok entries) = Except.ok n →
      initial_zips (Except.ok entries) = n) ∧
    (∀ j, (main_trace j).count MainAction.computeBaseline = 1 ∧
      MainAction.computeBaseline ∈ (main_trace j).take 6 ∧
      (∀ i, MainAction.spawnWorker i ∉ (main_trace j).take 6) ∧
      (∀ a ∈ (main_trace j).drop 6, ∃ b, a = MainAction.spawnWorker b)) := by
  refine ⟨fun e => rfl, fun entries n h => ?_, fun j => ⟨?_, ?_, ?_, ?_⟩⟩
  · unfold initial_zips
    rw [h]
  · have h0 : ((List.range (workerSpawnCount j)).map
        MainAction.spawnWorker).count MainAction.computeBaseline = 0 := by
      simp [List.count_eq_zero, List.mem_map]
    rw [main_trace, List.count_append, h0]
    decide
  · rw [main_trace_take]
    decide
  · intro i
    rw [main_trace_take]
    simp
  · intro a ha
    rw [main_trace_drop] at ha
    rcases List.mem_map.1 ha with ⟨b, _, hb⟩
    exact ⟨b, hb.symm⟩

/-- Witness for C8: a failing directory read yields Baseline 0; a successful
count of one zip yields Baseline 1; at `jobs = 1` the trace contains one
Baseline computation and the sole worker spawn is after the setup. -/
theorem c8_baseline_once_witness :
    initial_zips (Except.error "x") = 0 ∧
    initial_zips (Except.ok [Except.ok "a.zip"]) = 1 ∧
    (main_trace 1).count MainAction.computeBaseline = 1 ∧
    ∃ b, MainAction.spawnWorker 0 = MainAction.spawnWorker b :=
  ⟨c8_baseline_once.1 "x",
   c8_baseline_once.2.1 [Except.ok "a.zip"] 1 rfl,
   (c8_baseline_once.2.2 1).1,
   (c8_baseline_once.2.2 1).2.2.2 (MainAction.spawnWorker 0) (by decide)⟩
